import Mathlib

/-!
Verification of the `trustyai.metrics.distance` module (token-level
Levenshtein distance).

The Python module in `src/trustyai/metrics/distance.py` is a wrapper: the
dynamic-programming engine lives in the native library
`org.kie.trustyai.metrics.language.distance.Levenshtein`, whose source is not
part of this repository.  Following the specification, the engine
(`calculateToken`: the (m+1) x (n+1) cost matrix, the distance, and the
backtrace that classifies operations into substitutions / insertions /
deletions / correct) is modelled here from the spec's algorithm (section 4.1),
while everything the Python file itself does — the `[1:, 1:]` matrix slicing
in `LevenshteinResult.convert`, the tokenizer dispatch in `levenshtein`, and
the matplotlib calls in `LevenshteinResult.plot` — is embedded directly from
the source.
-/

namespace TrustyAI

/-- Row i+1 of the dynamic-programming cost matrix, given row i as `prev`:
the recurrence of spec section 4.1 step 3, written row by row so that the
whole table is a structural (fully evaluable) recursion. -/
def levCol {α : Type} [DecidableEq α] (A B : List α) (prev : Nat → Nat) (i : Nat) :
    Nat → Nat
  | 0 => i + 1
  | j + 1 =>
      min (prev (j + 1) + 1)
        (min (levCol A B prev i j + 1)
          (prev j + if A.get? i = B.get? j then 0 else 1))

/-- Modelled from the spec (section 4.1, steps 1-3): cell (i, j) of the
dynamic-programming cost matrix `D` for reference `A` and hypothesis `B`.
`D[i][0] = i`, `D[0][j] = j`, and
`D[i][j] = min(D[i-1][j] + 1, D[i][j-1] + 1, D[i-1][j-1] + sub_cost)` where
`sub_cost` is 0 when `reference[i-1] == hypothesis[j-1]` and 1 otherwise
(see `levCell_succ_succ`, which recovers that recurrence definitionally). -/
def levCell {α : Type} [DecidableEq α] (A B : List α) : Nat → Nat → Nat
  | 0 => fun j => j
  | i + 1 => levCol A B (levCell A B i) i

/-- Base row: `D[0][j] = j`. -/
theorem levCell_zero_left {α : Type} [DecidableEq α] (A B : List α) (j : Nat) :
    levCell A B 0 j = j := rfl

/-- Base column: `D[i][0] = i`. -/
theorem levCell_zero_right {α : Type} [DecidableEq α] (A B : List α) (i : Nat) :
    levCell A B i 0 = i := by
  cases i <;> rfl

/-- The spec's recurrence for the interior cells, recovered from the
row-by-row definition. -/
theorem levCell_succ_succ {α : Type} [DecidableEq α] (A B : List α) (i j : Nat) :
    levCell A B (i + 1) (j + 1) =
      min (levCell A B i (j + 1) + 1)
        (min (levCell A B (i + 1) j + 1)
          (levCell A B i j + if A.get? i = B.get? j then 0 else 1)) := rfl

/-- Counters for the four operation classes, as in the Python dataclass
`LevenshteinCounters`. -/
structure LevenshteinCounters where
  substitutions : Nat
  insertions : Nat
  deletions : Nat
  correct : Nat
deriving DecidableEq, Repr

/-- Function `LevenshteinCounters.convert` from the source: field-by-field transcription
of the native counters (`getSubstitutions`, `getInsertions`, `getDeletions`,
`getCorrect`) into the Python dataclass. -/
def LevenshteinCounters.convert (result : LevenshteinCounters) : LevenshteinCounters :=
  ⟨result.substitutions, result.insertions, result.deletions, result.correct⟩

/-- Backtrace along row 0: from (0, j) only horizontal moves remain, each an
insertion. -/
def backRow0 : Nat → LevenshteinCounters
  | 0 => ⟨0, 0, 0, 0⟩
  | j + 1 =>
      let c := backRow0 j
      ⟨c.substitutions, c.insertions + 1, c.deletions, c.correct⟩

/-- Backtrace along row i+1, given the backtrace results of row i as `prev`:
at (i+1, 0) only the vertical move (a deletion) remains; at an interior cell
the predecessor is chosen by the spec's tie-break — diagonal first (correct
when the tokens match, substitution otherwise), then vertical (deletion),
then horizontal (insertion) — among those achieving the recorded minimum. -/
def backCol {α : Type} [DecidableEq α] (A B : List α)
    (prev : Nat → LevenshteinCounters) (i : Nat) : Nat → LevenshteinCounters
  | 0 =>
      let c := prev 0
      ⟨c.substitutions, c.insertions, c.deletions + 1, c.correct⟩
  | j + 1 =>
      if levCell A B (i + 1) (j + 1) =
          levCell A B i j + (if A.get? i = B.get? j then 0 else 1) then
        let c := prev j
        if A.get? i = B.get? j then
          ⟨c.substitutions, c.insertions, c.deletions, c.correct + 1⟩
        else
          ⟨c.substitutions + 1, c.insertions, c.deletions, c.correct⟩
      else if levCell A B (i + 1) (j + 1) = levCell A B i (j + 1) + 1 then
        let c := prev (j + 1)
        ⟨c.substitutions, c.insertions, c.deletions + 1, c.correct⟩
      else
        let c := backCol A B prev i j
        ⟨c.substitutions, c.insertions + 1, c.deletions, c.correct⟩

/-- Modelled from the spec (section 4.1, steps 5-6): backtrace from cell
(i, j) to (0, 0), classifying each step.  Tie-break is the spec's fixed
deterministic rule: prefer diagonal (correct / substitution), then the
vertical move (deletion), then the horizontal move (insertion). -/
def backtrace {α : Type} [DecidableEq α] (A B : List α) : Nat → Nat → LevenshteinCounters
  | 0 => backRow0
  | i + 1 => backCol A B (backtrace A B i) i

/-- Unfolding lemma: the vertical edge of the backtrace counts deletions. -/
theorem backtrace_succ_zero {α : Type} [DecidableEq α] (A B : List α) (i : Nat) :
    backtrace A B (i + 1) 0 =
      let c := backtrace A B i 0
      ⟨c.substitutions, c.insertions, c.deletions + 1, c.correct⟩ := rfl

/-- Unfolding lemma: the horizontal edge of the backtrace counts insertions. -/
theorem backtrace_zero_succ {α : Type} [DecidableEq α] (A B : List α) (j : Nat) :
    backtrace A B 0 (j + 1) =
      let c := backtrace A B 0 j
      ⟨c.substitutions, c.insertions + 1, c.deletions, c.correct⟩ := rfl

/-- Unfolding lemma: interior backtrace step with the spec's tie-break. -/
theorem backtrace_succ_succ {α : Type} [DecidableEq α] (A B : List α) (i j : Nat) :
    backtrace A B (i + 1) (j + 1) =
      if levCell A B (i + 1) (j + 1) =
          levCell A B i j + (if A.get? i = B.get? j then 0 else 1) then
        let c := backtrace A B i j
        if A.get? i = B.get? j then
          ⟨c.substitutions, c.insertions, c.deletions, c.correct + 1⟩
        else
          ⟨c.substitutions + 1, c.insertions, c.deletions, c.correct⟩
      else if levCell A B (i + 1) (j + 1) = levCell A B i (j + 1) + 1 then
        let c := backtrace A B i (j + 1)
        ⟨c.substitutions, c.insertions, c.deletions + 1, c.correct⟩
      else
        let c := backtrace A B (i + 1) j
        ⟨c.substitutions, c.insertions + 1, c.deletions, c.correct⟩ := rfl

/-- A 2-D numpy array: its shape (`rows` x `cols`) together with its entries.
Numpy keeps the shape even when one dimension is 0, so the shape is carried
explicitly rather than recomputed from the data. -/
structure NdArray where
  rows : Nat
  cols : Nat
  data : List (List Nat)
deriving DecidableEq, Repr

/-- The numpy slicing `a[1:, 1:]`: drop row 0 and column 0.  The shape shrinks
by one in each dimension (numpy clamps at 0 for empty arrays). -/
def NdArray.sliceOneOne (a : NdArray) : NdArray :=
  ⟨a.rows - 1, a.cols - 1, a.data.tail.map List.tail⟩

/-- The rows of the full (m+1) x (n+1) cost matrix for `A` and `B`. -/
def fullRows {α : Type} [DecidableEq α] (A B : List α) : List (List Nat) :=
  (List.range (A.length + 1)).map fun i =>
    (List.range (B.length + 1)).map fun j => levCell A B i j

/-- Modelled from the spec: the result returned by the native engine
`Levenshtein.calculateToken` before conversion — the scalar distance
`D[m][n]`, the counters from the backtrace, the full (m+1) x (n+1) distance
matrix (`getDistanceMatrix().getData()`), and the two token sequences
(`getReferenceTokens()`, `getHypothesisTokens()`). -/
structure JavaLevenshteinResult where
  distance : Nat
  counters : LevenshteinCounters
  distanceMatrix : NdArray
  referenceTokens : List String
  hypothesisTokens : List String
deriving DecidableEq, Repr

/-- Modelled from the spec (section 4.1): the native engine computes the full
DP table, reads the distance off `D[m][n]`, and classifies operations by
backtracing from (m, n). -/
def Levenshtein.calculateToken (A B : List String) : JavaLevenshteinResult :=
  ⟨levCell A B A.length B.length,
   backtrace A B A.length B.length,
   ⟨A.length + 1, B.length + 1, fullRows A B⟩,
   A, B⟩

/-- The Python dataclass `LevenshteinResult`. -/
structure LevenshteinResult where
  distance : Nat
  counters : LevenshteinCounters
  matrix : NdArray
  reference : List String
  hypothesis : List String
deriving DecidableEq, Repr

/-- Function `LevenshteinResult.convert` from the source: copies the distance and the
converted counters, slices the initialization border off the native distance
matrix (`np.array(data)[1:, 1:]`), and keeps the two token sequences. -/
def LevenshteinResult.convert (result : JavaLevenshteinResult) : LevenshteinResult :=
  ⟨result.distance,
   LevenshteinCounters.convert result.counters,
   result.distanceMatrix.sliceOneOne,
   result.referenceTokens,
   result.hypothesisTokens⟩

example :
    (LevenshteinResult.convert
      (Levenshtein.calculateToken ["a", "b", "c"] ["a", "x", "c"])).distance = 1 := by
  decide

example :
    (LevenshteinResult.convert
      (Levenshtein.calculateToken ["a", "b", "c"] ["a", "x", "c"])).counters =
      ⟨1, 0, 0, 2⟩ := by
  decide

example :
    (LevenshteinResult.convert
      (Levenshtein.calculateToken ["a", "b"] ["a", "b", "c"])).counters =
      ⟨0, 1, 0, 2⟩ := by
  decide

example :
    (LevenshteinResult.convert
      (Levenshtein.calculateToken ["a", "b"] ["a", "b", "c"])).matrix =
      ⟨2, 3, [[0, 1, 2], [1, 0, 1]]⟩ := by
  decide

/-- The `tokenizer` argument of the Python `levenshtein` function.  Python
values are classified by exactly the three tests the source applies, in
order: truthiness (`if not tokenizer`), `isinstance(tokenizer, Tokenizer)`,
and `callable(tokenizer)`.
* `noneV` — the argument is absent or `None` (falsy, not a `Tokenizer`, not
  callable);
* `tok f` — an OpenNLP `Tokenizer` instance whose `tokenize` behaviour is
  `f` (truthy: it defines neither `__bool__` nor `__len__`);
* `call f` — a plain callable `f` (truthy, as ordinary functions are);
* `other b` — any other Python value, with truthiness `b` (e.g. `0`, `""`
  and `[]` give `other false`; `5` or `object()` give `other true`). -/
inductive TokenizerArg where
  | noneV : TokenizerArg
  | tok : (String → List String) → TokenizerArg
  | call : (String → List String) → TokenizerArg
  | other : Bool → TokenizerArg

/-- Python truthiness of a `TokenizerArg` (what `if not tokenizer` tests). -/
def TokenizerArg.truthy : TokenizerArg → Bool
  | .noneV => false
  | .tok _ => true
  | .call _ => true
  | .other b => b

/-- Whether a call outcome is the error case (a raised exception). -/
def isError {ε α : Type} : Except ε α → Bool
  | .error _ => true
  | .ok _ => false

/-- The Python function `levenshtein` from the source.  `dt` models the
native engine's default tokenization of a raw string (tokenization is an
external collaborator; for the `Tokenizer` branch the native engine applies
the supplied tokenizer the same way, per spec section 9).  The dispatch
order is the source's: `if not tokenizer` (default path), then
`isinstance(tokenizer, Tokenizer)`, then `callable(tokenizer)`, and
otherwise `raise ValueError("Unsupported tokenizer")`. -/
def levenshtein (dt : String → List String) (reference hypothesis : String)
    (tokenizer : TokenizerArg) : Except String LevenshteinResult :=
  if tokenizer.truthy = false then
    .ok (LevenshteinResult.convert
      (Levenshtein.calculateToken (dt reference) (dt hypothesis)))
  else
    match tokenizer with
    | .tok f =>
        .ok (LevenshteinResult.convert
          (Levenshtein.calculateToken (f reference) (f hypothesis)))
    | .call f =>
        let tokenizedReference := f reference
        let tokenizedHypothesis := f hypothesis
        .ok (LevenshteinResult.convert
          (Levenshtein.calculateToken tokenizedReference tokenizedHypothesis))
    | _ => .error "Unsupported tokenizer"

/-- Modelled from the spec (sections 4.1 and 7): `a null/absent sequence
argument is a usage error (reject before entering the algorithm)`.  The
Python wrapper's `reference` and `hypothesis` parameters can receive `None`;
the boundary rejects that before the engine runs, and otherwise behaves as
`levenshtein`. -/
def levenshteinBoundary (dt : String → List String)
    (reference hypothesis : Option String) (tokenizer : TokenizerArg) :
    Except String LevenshteinResult :=
  match reference, hypothesis with
  | some r, some h => levenshtein dt r h tokenizer
  | _, _ => .error "reference and hypothesis must be provided"

/-- What `LevenshteinResult.plot` hands to matplotlib, as far as axes and
ticks are concerned. -/
structure PlotModel where
  xtickCount : Nat
  ytickCount : Nat
  xtickLabels : List String
  ytickLabels : List String
  xAxisLen : Nat
  yAxisLen : Nat
deriving DecidableEq, Repr

/-- The matplotlib calls of `LevenshteinResult.plot` from the source:
`imshow(self.matrix)` lays the matrix rows along the y-axis and the columns
along the x-axis (so the x-axis spans `matrix.cols` cells and the y-axis
`matrix.rows`), while `set_xticks(np.arange(len(self.reference)))` places
`len(reference)` tick positions labeled `self.reference` on the x-axis and
`set_yticks(np.arange(len(self.hypothesis)))` places `len(hypothesis)` tick
positions labeled `self.hypothesis` on the y-axis. -/
def LevenshteinResult.plotModel (res : LevenshteinResult) : PlotModel :=
  ⟨res.reference.length, res.hypothesis.length,
   res.reference, res.hypothesis,
   res.matrix.cols, res.matrix.rows⟩

/-! Lemmas about the cost matrix and the backtrace. -/

/-- The cost matrix is symmetric in its two sequences (cells transpose). -/
theorem levCell_symm {α : Type} [DecidableEq α] (A B : List α) :
    ∀ i j, levCell A B i j = levCell B A j i := by
  intro i
  induction i with
  | zero => intro j; rw [levCell_zero_left, levCell_zero_right]
  | succ i ihi =>
    intro j
    induction j with
    | zero => rw [levCell_zero_right, levCell_zero_left]
    | succ j ihj =>
      rw [levCell_succ_succ, levCell_succ_succ, ihi (j + 1), ihj, ihi j,
        if_congr eq_comm rfl rfl]
      exact min_left_comm _ _ _

/-- Diagonal cells vanish when the two sequences coincide. -/
theorem levCell_self {α : Type} [DecidableEq α] (A : List α) :
    ∀ k, levCell A A k k = 0 := by
  intro k
  induction k with
  | zero => rfl
  | succ k ih =>
    rw [levCell_succ_succ, if_pos rfl, ih]
    omega

/-- A cell of the cost matrix is 0 exactly when it is a diagonal cell below
which the two prefixes agree. -/
theorem levCell_eq_zero_iff {α : Type} [DecidableEq α] (A B : List α) :
    ∀ i j, levCell A B i j = 0 ↔ i = j ∧ ∀ k, k < i → A.get? k = B.get? k := by
  intro i
  induction i with
  | zero =>
    intro j
    rw [levCell_zero_left]
    constructor
    · rintro rfl
      exact ⟨rfl, fun k hk => absurd hk (Nat.not_lt_zero k)⟩
    · rintro ⟨rfl, -⟩
      rfl
  | succ i ihi =>
    intro j
    cases j with
    | zero =>
      rw [levCell_zero_right]
      simp
    | succ j =>
      rw [levCell_succ_succ]
      constructor
      · intro h
        have hdiag : levCell A B i j + (if A.get? i = B.get? j then 0 else 1) = 0 := by
          omega
        have hsc : A.get? i = B.get? j := by
          by_contra hne
          rw [if_neg hne] at hdiag
          omega
        have hz : levCell A B i j = 0 := by
          rw [if_pos hsc] at hdiag
          omega
        obtain ⟨hij, hall⟩ := (ihi j).mp hz
        subst hij
        refine ⟨rfl, fun k hk => ?_⟩
        rcases Nat.lt_succ_iff_lt_or_eq.mp hk with hk' | hk'
        · exact hall k hk'
        · subst hk'
          exact hsc
      · rintro ⟨hij, hall⟩
        have hij' : i = j := Nat.succ_injective hij
        subst hij'
        have hsc : A.get? i = B.get? i := hall i (Nat.lt_succ_self i)
        have hz : levCell A B i i = 0 :=
          (ihi i).mpr ⟨rfl, fun k hk => hall k (Nat.lt_succ_of_lt hk)⟩
        rw [if_pos hsc, hz]
        omega

/-- The distance vanishes exactly on equal sequences. -/
theorem levCell_corner_eq_zero_iff {α : Type} [DecidableEq α] (A B : List α) :
    levCell A B A.length B.length = 0 ↔ A = B := by
  rw [levCell_eq_zero_iff]
  constructor
  · rintro ⟨hlen, hall⟩
    apply List.ext_get?
    intro n
    by_cases hn : n < A.length
    · exact hall n hn
    · rw [List.get?_eq_none.mpr (le_of_not_lt hn),
        List.get?_eq_none.mpr (hlen ▸ le_of_not_lt hn)]
  · rintro rfl
    exact ⟨rfl, fun k _ => rfl⟩

/-- Along the left border the backtrace records only deletions. -/
theorem backtrace_col0 {α : Type} [DecidableEq α] (A B : List α) :
    ∀ i, backtrace A B i 0 = ⟨0, 0, i, 0⟩ := by
  intro i
  induction i with
  | zero => rfl
  | succ i ih => rw [backtrace_succ_zero, ih]

/-- Along the top border the backtrace records only insertions. -/
theorem backtrace_row0 {α : Type} [DecidableEq α] (A B : List α) :
    ∀ j, backtrace A B 0 j = ⟨0, j, 0, 0⟩ := by
  intro j
  induction j with
  | zero => rfl
  | succ j ih => rw [backtrace_zero_succ, ih]

/-- On equal sequences the backtrace walks the diagonal, counting only
correct matches. -/
theorem backtrace_self {α : Type} [DecidableEq α] (A : List α) :
    ∀ k, backtrace A A k k = ⟨0, 0, 0, k⟩ := by
  intro k
  induction k with
  | zero => rfl
  | succ k ih =>
    rw [backtrace_succ_succ, if_pos rfl]
    rw [if_pos (show levCell A A (k + 1) (k + 1) = levCell A A k k + 0 by
      rw [levCell_self, levCell_self])]
    rw [if_pos rfl, ih]

/-- The counted edit operations account exactly for the recorded distance:
substitutions + insertions + deletions at (i, j) equal cell (i, j). -/
theorem backtrace_sum {α : Type} [DecidableEq α] (A B : List α) :
    ∀ i j, (backtrace A B i j).substitutions + (backtrace A B i j).insertions +
      (backtrace A B i j).deletions = levCell A B i j := by
  intro i
  induction i with
  | zero =>
    intro j
    rw [backtrace_row0, levCell_zero_left]
    simp
  | succ i ihi =>
    intro j
    induction j with
    | zero =>
      rw [backtrace_col0, levCell_zero_right]
      simp
    | succ j ihj =>
      rw [backtrace_succ_succ]
      by_cases hd :
          levCell A B (i + 1) (j + 1) =
            levCell A B i j + (if A.get? i = B.get? j then 0 else 1)
      · rw [if_pos hd]
        by_cases hsc : A.get? i = B.get? j
        · rw [if_pos hsc] at hd ⊢
          show (backtrace A B i j).substitutions + (backtrace A B i j).insertions +
            (backtrace A B i j).deletions = levCell A B (i + 1) (j + 1)
          have := ihi j
          omega
        · rw [if_neg hsc] at hd ⊢
          show (backtrace A B i j).substitutions + 1 + (backtrace A B i j).insertions +
            (backtrace A B i j).deletions = levCell A B (i + 1) (j + 1)
          have := ihi j
          omega
      · rw [if_neg hd]
        by_cases hdel : levCell A B (i + 1) (j + 1) = levCell A B i (j + 1) + 1
        · rw [if_pos hdel]
          show (backtrace A B i (j + 1)).substitutions +
            (backtrace A B i (j + 1)).insertions +
            ((backtrace A B i (j + 1)).deletions + 1) = levCell A B (i + 1) (j + 1)
          have := ihi (j + 1)
          omega
        · rw [if_neg hdel]
          have hins : levCell A B (i + 1) (j + 1) = levCell A B (i + 1) j + 1 := by
            have hrec := levCell_succ_succ A B i j
            omega
          show (backtrace A B (i + 1) j).substitutions +
            ((backtrace A B (i + 1) j).insertions + 1) +
            (backtrace A B (i + 1) j).deletions = levCell A B (i + 1) (j + 1)
          omega

/-- The exposed (sliced) rows: row i, column j of `data[1:, 1:]` holds cell
(i+1, j+1) of the full table. -/
theorem fullRows_sliced {α : Type} [DecidableEq α] (A B : List α) :
    (fullRows A B).tail.map List.tail =
      (List.range A.length).map fun i =>
        (List.range B.length).map fun j => levCell A B (i + 1) (j + 1) := by
  unfold fullRows
  rw [List.range_succ_eq_map, List.range_succ_eq_map]
  simp [List.map_map, Function.comp]

/-- Reading a mapped range with a default: in-range positions give the
mapped value. -/
theorem getD_map_range {β : Type} (f : Nat → β) (k i : Nat) (d : β) (h : i < k) :
    (((List.range k).map f).getD i d) = f i := by
  rw [List.getD_eq_getElem?_getD, List.getElem?_map, List.getElem?_range h]
  rfl

/-! The claims. -/

/-- C1: the matrix field of every LevenshteinResult excludes the
initialization border of the DP table (row 0 and column 0): the exposed
matrix has exactly `len(reference)` rows and `len(hypothesis)` columns,
while the distance and the counters are computed from the full
(m+1) x (n+1) table. -/
theorem C1_matrix_excludes_border (A B : List String) :
    (LevenshteinResult.convert (Levenshtein.calculateToken A B)).matrix.rows = A.length ∧
    (LevenshteinResult.convert (Levenshtein.calculateToken A B)).matrix.cols = B.length ∧
    (LevenshteinResult.convert (Levenshtein.calculateToken A B)).matrix.data.map List.length =
      List.replicate A.length B.length ∧
    (LevenshteinResult.convert (Levenshtein.calculateToken A B)).distance =
      ((fullRows A B).getD A.length []).getD B.length 0 ∧
    (LevenshteinResult.convert (Levenshtein.calculateToken A B)).counters =
      LevenshteinCounters.convert (backtrace A B A.length B.length) := by
  refine ⟨rfl, rfl, ?_, ?_, rfl⟩
  · show ((fullRows A B).tail.map List.tail).map List.length =
      List.replicate A.length B.length
    rw [fullRows_sliced, List.map_map]
    simp [Function.comp_def]
  · show levCell A B A.length B.length = ((fullRows A B).getD A.length []).getD B.length 0
    unfold fullRows
    rw [getD_map_range _ _ _ _ (Nat.lt_succ_self A.length),
      getD_map_range _ _ _ _ (Nat.lt_succ_self B.length)]

/-- C2: for every computed Result,
substitutions + insertions + deletions equals the distance field. -/
theorem C2_counters_sum_eq_distance (A B : List String) :
    (LevenshteinResult.convert (Levenshtein.calculateToken A B)).counters.substitutions +
      (LevenshteinResult.convert (Levenshtein.calculateToken A B)).counters.insertions +
      (LevenshteinResult.convert (Levenshtein.calculateToken A B)).counters.deletions =
      (LevenshteinResult.convert (Levenshtein.calculateToken A B)).distance :=
  backtrace_sum A B A.length B.length

/-- C3, counterexample to the claim as stated: `0` (modelled as
`TokenizerArg.other false`: a Python value that is neither None, nor a
`Tokenizer`, nor callable, and is falsy) is an unsupported tokenizer type,
yet the call is not rejected — `if not tokenizer` routes it to the default
computation, which succeeds. -/
theorem C3_counterexample :
    isError (levenshtein (fun s => [s]) "a" "b" (TokenizerArg.other false)) = false := rfl

/-- C3 (amended): a truthy tokenizer argument of unsupported type is
rejected with `ValueError("Unsupported tokenizer")` before any computation;
a falsy unsupported tokenizer (0, "", [], False) is treated like an absent
one and the default computation proceeds; for the three supported shapes
(absent/None, Tokenizer instance, callable) the computation proceeds. -/
theorem C3_amended_dispatch (dt f g : String → List String) (r h : String) :
    isError (levenshtein dt r h (TokenizerArg.other true)) = true ∧
    isError (levenshtein dt r h TokenizerArg.noneV) = false ∧
    isError (levenshtein dt r h (TokenizerArg.tok f)) = false ∧
    isError (levenshtein dt r h (TokenizerArg.call g)) = false ∧
    isError (levenshtein dt r h (TokenizerArg.other false)) = false :=
  ⟨rfl, rfl, rfl, rfl, rfl⟩

/-- C4: a null/absent reference or hypothesis is rejected at the boundary
before the algorithm is entered, and a caller always receives either a
complete Result or an explicit error (the outcome type admits exactly those
two cases; the Result record is total in its five fields). -/
theorem C4_null_rejected (dt : String → List String) (r h : String) (t : TokenizerArg) :
    isError (levenshteinBoundary dt none (some h) t) = true ∧
    isError (levenshteinBoundary dt (some r) none t) = true ∧
    isError (levenshteinBoundary dt none none t) = true ∧
    levenshteinBoundary dt (some r) (some h) t = levenshtein dt r h t ∧
    (∀ oR oH, (∃ e, levenshteinBoundary dt oR oH t = Except.error e) ∨
      ∃ res, levenshteinBoundary dt oR oH t = Except.ok res) := by
  refine ⟨rfl, rfl, rfl, rfl, fun oR oH => ?_⟩
  cases hres : levenshteinBoundary dt oR oH t with
  | error e => exact Or.inl ⟨e, rfl⟩
  | ok res => exact Or.inr ⟨res, rfl⟩

/-- C5: for non-empty reference and hypothesis, the bottom-right cell of the
exposed matrix equals the distance field. -/
theorem C5_bottom_right_cell (A B : List String) (hA : 0 < A.length)
    (hB : 0 < B.length) :
    (((LevenshteinResult.convert (Levenshtein.calculateToken A B)).matrix.data.getD
      (A.length - 1) []).getD (B.length - 1) 0) =
      (LevenshteinResult.convert (Levenshtein.calculateToken A B)).distance := by
  show ((((fullRows A B).tail.map List.tail).getD (A.length - 1) []).getD
      (B.length - 1) 0) = levCell A B A.length B.length
  rw [fullRows_sliced, getD_map_range _ _ _ _ (by omega),
    getD_map_range _ _ _ _ (by omega), Nat.sub_add_cancel hA, Nat.sub_add_cancel hB]

/-- Witness for C5 at reference ["a", "b"], hypothesis ["a"]. -/
theorem C5_bottom_right_cell_witness :
    0 < (["a", "b"] : List String).length ∧ 0 < (["a"] : List String).length ∧
    (((LevenshteinResult.convert
        (Levenshtein.calculateToken ["a", "b"] ["a"])).matrix.data.getD
      ((["a", "b"] : List String).length - 1) []).getD
      ((["a"] : List String).length - 1) 0) =
      (LevenshteinResult.convert (Levenshtein.calculateToken ["a", "b"] ["a"])).distance :=
  ⟨by decide, by decide, C5_bottom_right_cell ["a", "b"] ["a"] (by decide) (by decide)⟩

/-- C6: the distance is 0 exactly when the two token sequences are equal
element-wise, and on compute(A, A) the distance is 0, correct counts the
whole of A, and the other three counters are 0. -/
theorem C6_distance_zero_iff_equal (A B : List String) :
    ((LevenshteinResult.convert (Levenshtein.calculateToken A B)).distance = 0 ↔ A = B) ∧
    (LevenshteinResult.convert (Levenshtein.calculateToken A A)).distance = 0 ∧
    (LevenshteinResult.convert (Levenshtein.calculateToken A A)).counters.correct =
      A.length ∧
    (LevenshteinResult.convert (Levenshtein.calculateToken A A)).counters.substitutions = 0 ∧
    (LevenshteinResult.convert (Levenshtein.calculateToken A A)).counters.insertions = 0 ∧
    (LevenshteinResult.convert (Levenshtein.calculateToken A A)).counters.deletions = 0 := by
  refine ⟨levCell_corner_eq_zero_iff A B, levCell_self A A.length, ?_, ?_, ?_, ?_⟩
  · show (backtrace A A A.length A.length).correct = A.length
    rw [backtrace_self]
  · show (backtrace A A A.length A.length).substitutions = 0
    rw [backtrace_self]
  · show (backtrace A A A.length A.length).insertions = 0
    rw [backtrace_self]
  · show (backtrace A A A.length A.length).deletions = 0
    rw [backtrace_self]

/-- C7: the distance is symmetric in its two arguments. -/
theorem C7_distance_symmetric (A B : List String) :
    (LevenshteinResult.convert (Levenshtein.calculateToken A B)).distance =
      (LevenshteinResult.convert (Levenshtein.calculateToken B A)).distance :=
  levCell_symm A B A.length B.length

/-- C8: against an empty sequence the distance is the length of the other
sequence, classified entirely as deletions (empty hypothesis) or insertions
(empty reference), with substitutions and correct both 0. -/
theorem C8_empty_sequence (A : List String) :
    (LevenshteinResult.convert (Levenshtein.calculateToken A [])).distance = A.length ∧
    (LevenshteinResult.convert (Levenshtein.calculateToken A [])).counters =
      ⟨0, 0, A.length, 0⟩ ∧
    (LevenshteinResult.convert (Levenshtein.calculateToken [] A)).distance = A.length ∧
    (LevenshteinResult.convert (Levenshtein.calculateToken [] A)).counters =
      ⟨0, A.length, 0, 0⟩ := by
  refine ⟨levCell_zero_right A [] A.length, ?_, levCell_zero_left [] A A.length, ?_⟩
  · show LevenshteinCounters.convert (backtrace A [] A.length 0) = ⟨0, 0, A.length, 0⟩
    rw [backtrace_col0]
    rfl
  · show LevenshteinCounters.convert (backtrace [] A 0 A.length) = ⟨0, A.length, 0, 0⟩
    rw [backtrace_row0]
    rfl

/-- C9: the computation is deterministic and depends only on its arguments —
two calls of `levenshtein` with identical reference, hypothesis and
tokenizer arguments produce equal Results.  (The embedding is a pure
function with no state threaded between invocations, matching the source,
which reads and writes no module-level mutable state and keeps no cache.) -/
theorem C9_deterministic (dt : String → List String) (r1 r2 h1 h2 : String)
    (t1 t2 : TokenizerArg) (hr : r1 = r2) (hh : h1 = h2) (ht : t1 = t2) :
    levenshtein dt r1 h1 t1 = levenshtein dt r2 h2 t2 := by
  rw [hr, hh, ht]

/-- Witness for C9: two identical calls agree. -/
theorem C9_deterministic_witness :
    levenshtein (fun s => [s]) "a" "b" TokenizerArg.noneV =
      levenshtein (fun s => [s]) "a" "b" TokenizerArg.noneV :=
  C9_deterministic (fun s => [s]) "a" "a" "b" "b" TokenizerArg.noneV TokenizerArg.noneV
    rfl rfl rfl

/-- C10: in `plot`, the x-axis gets `len(reference)` ticks labeled with the
reference tokens and the y-axis `len(hypothesis)` ticks labeled with the
hypothesis tokens, while `imshow` lays the matrix's `len(reference)` rows
along the y-axis and its `len(hypothesis)` columns along the x-axis; hence
whenever `len(reference) != len(hypothesis)` the tick counts do not match
the lengths of the axes they label. -/
theorem C10_plot_tick_mismatch (A B : List String) (hne : A.length ≠ B.length) :
    (LevenshteinResult.convert (Levenshtein.calculateToken A B)).plotModel.xtickCount =
      A.length ∧
    (LevenshteinResult.convert (Levenshtein.calculateToken A B)).plotModel.xtickLabels = A ∧
    (LevenshteinResult.convert (Levenshtein.calculateToken A B)).plotModel.ytickCount =
      B.length ∧
    (LevenshteinResult.convert (Levenshtein.calculateToken A B)).plotModel.ytickLabels = B ∧
    (LevenshteinResult.convert (Levenshtein.calculateToken A B)).plotModel.yAxisLen =
      A.length ∧
    (LevenshteinResult.convert (Levenshtein.calculateToken A B)).plotModel.xAxisLen =
      B.length ∧
    (LevenshteinResult.convert (Levenshtein.calculateToken A B)).plotModel.xtickCount ≠
      (LevenshteinResult.convert (Levenshtein.calculateToken A B)).plotModel.xAxisLen ∧
    (LevenshteinResult.convert (Levenshtein.calculateToken A B)).plotModel.ytickCount ≠
      (LevenshteinResult.convert (Levenshtein.calculateToken A B)).plotModel.yAxisLen := by
  refine ⟨rfl, rfl, rfl, rfl, ?_, ?_, ?_, ?_⟩
  · show (A.length + 1) - 1 = A.length
    omega
  · show (B.length + 1) - 1 = B.length
    omega
  · show A.length ≠ (B.length + 1) - 1
    omega
  · show B.length ≠ (A.length + 1) - 1
    omega

/-- Witness for C10 at reference ["a", "b"], hypothesis ["a"]. -/
theorem C10_plot_tick_mismatch_witness :
    (["a", "b"] : List String).length ≠ (["a"] : List String).length ∧
    (LevenshteinResult.convert
        (Levenshtein.calculateToken ["a", "b"] ["a"])).plotModel.xtickCount ≠
      (LevenshteinResult.convert
        (Levenshtein.calculateToken ["a", "b"] ["a"])).plotModel.xAxisLen :=
  ⟨by decide, (C10_plot_tick_mismatch ["a", "b"] ["a"] (by decide)).2.2.2.2.2.2.1⟩

end TrustyAI
